import Mathlib

/-!
Shallow embedding of the cloud-custodian excerpt
(`c7n/resources/rdscluster.py` and `c7n/resources/account.py`).

Modelling conventions:
* Resource records are Lean structures holding the fields the code reads;
  optional / possibly-missing dictionary keys become `Option` fields, and
  Python truthiness of a string is "the string is nonempty".
* Remote API calls become function parameters: a read call is a value
  (the data it would return), a mutating call is a function from the request
  payload to `Option` of an error code (`none` = success).
* Fallible code returns `Except PyError _`; side effects (API mutation
  requests issued, log lines) are returned explicitly as lists.
-/

/-- Python runtime errors relevant to this code base. -/
inductive PyError where
  | indexError : PyError
  | keyError : String → PyError
  | nameError : String → PyError
  | clientError : String → PyError
deriving DecidableEq

/-! ## rdscluster.py : data model -/

/-- An RDS cluster record, with the fields `rdscluster.py` reads.
`BackupRetentionPeriod` is read via `.get(..., 0)`, hence `Option`. -/
structure Cluster where
  DBClusterIdentifier : String
  BackupRetentionPeriod : Option Int
  PreferredBackupWindow : String
  PreferredMaintenanceWindow : String
deriving DecidableEq

/-- The payload of one `modify_db_cluster` request issued by
`RetentionWindow.set_retention_window`. -/
structure ModifyCall where
  DBClusterIdentifier : String
  BackupRetentionPeriod : Int
  PreferredBackupWindow : String
  PreferredMaintenanceWindow : String
deriving DecidableEq

/-- An RDS cluster snapshot record (`rds-cluster-snapshot` resource). -/
structure Snap where
  DBClusterSnapshotIdentifier : String
deriving DecidableEq

/-- Modelled from the spec: `snapshot_identifier` lives in `c7n/utils.py`,
which is not part of this excerpt.  The spec requires deterministic naming
from a prefix plus the resource id (the timestamp component is abstracted
away as part of the deterministic name). -/
def snapshot_identifier (pre : String) (resourceId : String) : String :=
  pre ++ "-" ++ resourceId

/-- The names bound at module level by the import statements of
`rdscluster.py` (lines 14-28).  Note that `ClientError` is referenced by
both `except` clauses of the file but appears nowhere in this list: the
module never imports it. -/
def rdsclusterImportedNames : List String :=
  ["logging", "as_completed", "ActionRegistry", "BaseAction",
   "FilterRegistry", "AgeFilter", "OPERATORS", "resources",
   "QueryResourceManager", "type_schema", "local_session",
   "snapshot_identifier", "chunks", "log", "RDSCluster", "Delete",
   "RetentionWindow", "Snapshot", "RDSClusterSnapshot", "RDSSnapshotAge",
   "RDSClusterSnapshotDelete"]

/-- Whether the name `ClientError` resolves inside `rdscluster.py`.
Evaluating an `except SomeName` clause looks the name up at
exception-handling time; an unresolved name raises `NameError`. -/
def moduleHasClientError : Bool :=
  rdsclusterImportedNames.contains "ClientError"

/-! ## rdscluster.py : RetentionWindow action -/

/-- `RetentionWindow.set_retention_window`: builds the single
`modify_db_cluster` request, passing the resource's existing
`PreferredBackupWindow` and `PreferredMaintenanceWindow` through. -/
def RetentionWindow.set_retention_window (r : Cluster) (retention : Int) :
    ModifyCall :=
  ⟨r.DBClusterIdentifier, retention,
   r.PreferredBackupWindow, r.PreferredMaintenanceWindow⟩

/-- `RetentionWindow.process_snapshot_retention`: the per-resource unit of
the `retention` action.  `api` is the provider's `modify_db_cluster`
(returning `some e` when it raises `e`).  The result is the list of modify
requests issued, paired with the unit's outcome (`some r` is the Python
`return resource`, `none` the implicit `return None`). -/
def RetentionWindow.process_snapshot_retention (days : Int)
    (api : ModifyCall → Option PyError) (r : Cluster) :
    List ModifyCall × Except PyError (Option Cluster) :=
  let current := r.BackupRetentionPeriod.getD 0
  if current < days then
    let call := RetentionWindow.set_retention_window r (max current days)
    ([call],
      match api call with
      | some e => .error e
      | none => .ok (some r))
  else ([], .ok none)

/-! ## rdscluster.py : the bounded-concurrency action wave

The three actions share the same submit/await shape: every resource is
submitted as one unit of work, completed futures are polled with
`as_completed` and a unit's exception is observed via `f.exception()` and
logged — never re-raised.  The sequential model below records the per-unit
outcomes in submission order together with the log of captured errors
(faithful to the source's inner `as_completed` loop, which re-scans the
whole `futures` list after every submission, so an error is re-logged on
every later scan). -/

/-- The error, if any, captured from a finished future of outcome type
`γ` via `errOf`. `waveLogs` is the list of error log entries emitted by
the nested `for f in as_completed(futures)` loop: after the `k`-th
submission the first `k+1` outcomes are scanned and every exception among
them is logged. -/
def waveLogs (errOf : γ → Option PyError) (outcomes : List γ) :
    List PyError :=
  ((List.range outcomes.length).map
    (fun k => (outcomes.take (k + 1)).filterMap errOf)).flatten

/-- One action wave: submit every resource as a unit, collect each unit's
outcome, and capture (log) unit exceptions without re-raising them.  The
wave itself never raises: its result is the outcome list plus the error
log. -/
def runActionWave (unit : α → γ) (errOf : γ → Option PyError)
    (rs : List α) : List γ × List PyError :=
  let outcomes := rs.map unit
  (outcomes, waveLogs errOf outcomes)

/-- Extracts the captured exception of a retention unit. -/
def retentionErrOf :
    List ModifyCall × Except PyError (Option Cluster) → Option PyError
  | (_, .error e) => some e
  | (_, .ok _) => none

/-- Extracts the captured exception of an `Except`-valued unit. -/
def exceptErrOf : Except PyError β → Option PyError
  | .error e => some e
  | .ok _ => none

/-- `RetentionWindow.process`: the `retention` action over a resource
list — one wave of `process_snapshot_retention` units. -/
def RetentionWindow.process (days : Int)
    (api : ModifyCall → Option PyError) (rs : List Cluster) :
    List (List ModifyCall × Except PyError (Option Cluster)) ×
      List PyError :=
  runActionWave (RetentionWindow.process_snapshot_retention days api)
    retentionErrOf rs

/-- `Snapshot.process_cluster_snapshot`: the per-resource unit of the
`snapshot` action; issues one `create_db_cluster_snapshot` call named by
`snapshot_identifier`. `api` maps the cluster identifier to the error the
call raises, if any. -/
def Snapshot.process_cluster_snapshot (api : String → Option PyError)
    (r : Cluster) : Except PyError String :=
  match api r.DBClusterIdentifier with
  | some e => .error e
  | none => .ok (snapshot_identifier "Backup" r.DBClusterIdentifier)

/-- `Snapshot.process`: the `snapshot` action over a resource list — one
wave of `process_cluster_snapshot` units. -/
def Snapshot.process (api : String → Option PyError) (rs : List Cluster) :
    List (Except PyError String) × List PyError :=
  runActionWave (Snapshot.process_cluster_snapshot api) exceptErrOf rs

/-! ## rdscluster.py : Delete action -/

/-- The payload of one `delete_db_cluster` request. -/
structure DeleteClusterRequest where
  DBClusterIdentifier : String
  SkipFinalSnapshot : Bool
  FinalDBSnapshotIdentifier : Option String
deriving DecidableEq

/-- The request `Delete.process` builds for one cluster. -/
def Delete.mkParams (skip : Bool) (c : Cluster) : DeleteClusterRequest :=
  if skip then ⟨c.DBClusterIdentifier, true, none⟩
  else ⟨c.DBClusterIdentifier, false,
        some (snapshot_identifier "Final" c.DBClusterIdentifier)⟩

/-- `Delete.process`: sequentially deletes each cluster.  `api` is the
provider's `delete_db_cluster` (`some code` when it raises a client error
with that code).  The result is the list of cluster ids for which the
"Deleted RDS cluster" log line ran, plus the error that escaped the loop,
if any.  When a call raises, control reaches `except ClientError`; the
handler's class expression is the name `ClientError`, which resolves only
if the module imported it — otherwise evaluating the clause raises
`NameError('ClientError')` and that error propagates instead. -/
def Delete.process (api : DeleteClusterRequest → Option String)
    (skip : Bool) : List Cluster → List String × Option PyError
  | [] => ([], none)
  | c :: rest =>
    match api (Delete.mkParams skip c) with
    | none =>
      let (ds, e) := Delete.process api skip rest
      (c.DBClusterIdentifier :: ds, e)
    | some code =>
      if moduleHasClientError then
        if code ∈ ["InvalidDBClusterStateFault"] then
          Delete.process api skip rest
        else ([], some (.clientError code))
      else ([], some (.nameError "ClientError"))

/-! ## rdscluster.py : RDSClusterSnapshotDelete action -/

/-- Modelled from the spec: `chunks` lives in `c7n/utils.py`, which is not
part of this excerpt.  It splits a sequence into successive fixed-size
batches, the last possibly smaller.  Structural fuel (the input length)
makes the definition computable; for a positive size the fuel never runs
out. -/
def chunksAux (size : Nat) : Nat → List α → List (List α)
  | 0, _ => []
  | _, [] => []
  | fuel + 1, x :: xs =>
    ((x :: xs).take size) :: chunksAux size fuel ((x :: xs).drop size)

/-- Modelled from the spec: `chunks(iterable, size)` from `c7n/utils.py`. -/
def chunks (xs : List α) (size : Nat) : List (List α) :=
  chunksAux size xs.length xs

/-- The batches `RDSClusterSnapshotDelete.process` submits:
`chunks(reversed(snapshots), size=50)`. -/
def RDSClusterSnapshotDelete.batches (snaps : List α) : List (List α) :=
  chunks snaps.reverse 50

/-- `RDSClusterSnapshotDelete.process_snapshot_set`: deletes each snapshot
of one batch in order.  The `except ClientError` handler's body is a bare
`raise`; as in `Delete.process` the name `ClientError` must first resolve,
and in this module it does not, so a raising call propagates
`NameError('ClientError')`.  Returns the snapshot ids actually deleted
before the batch aborted, plus the escaping error, if any. -/
def RDSClusterSnapshotDelete.process_snapshot_set
    (api : String → Option String) : List Snap → List String × Option PyError
  | [] => ([], none)
  | s :: rest =>
    match api s.DBClusterSnapshotIdentifier with
    | none =>
      let (ds, e) := RDSClusterSnapshotDelete.process_snapshot_set api rest
      (s.DBClusterSnapshotIdentifier :: ds, e)
    | some code =>
      if moduleHasClientError then ([], some (.clientError code))
      else ([], some (.nameError "ClientError"))

/-- `RDSClusterSnapshotDelete.process`: one wave whose units are the
reversed 50-chunks of the snapshot list. -/
def RDSClusterSnapshotDelete.process (api : String → Option String)
    (snaps : List Snap) :
    List (List String × Option PyError) × List PyError :=
  runActionWave (RDSClusterSnapshotDelete.process_snapshot_set api)
    (fun o => o.2) (RDSClusterSnapshotDelete.batches snaps)

/-! ## account.py : sub-resource data model -/

/-- A CloudTrail trail record, with the fields `CloudTrailEnabled.process`
reads via `.get`: boolean flags default to false when absent and string
fields to the empty string (Python truthiness of a missing key). -/
structure Trail where
  TrailARN : String
  IncludeGlobalServiceEvents : Bool
  KmsKeyId : String
  LogFileValidationEnabled : Bool
  IsMultiRegionTrail : Bool
  SNSTopicArn : String
deriving DecidableEq

/-- The result of `get_trail_status` for one trail. -/
structure TrailStatus where
  IsLogging : Bool
  LatestDeliveryError : String
deriving DecidableEq

/-- The `check-cloudtrail` filter configuration (`self.data`): each
boolean key read with plain `.get` becomes a `Bool` (absent is falsy),
`kms-key` read with `.get` becomes a `String` ("" when absent), and
`running`, read as `.get('running', True)`, keeps the absent/present
distinction as an `Option Bool`. -/
structure CloudTrailData where
  multiRegion : Bool
  globalEvents : Bool
  running : Option Bool
  notifies : Bool
  fileDigest : Bool
  kms : Bool
  kmsKey : String
deriving DecidableEq

/-- A config-service delivery channel record (only its presence matters). -/
structure Channel where
  name : String
deriving DecidableEq

/-- A configuration recorder record, with the fields
`ConfigEnabled.process` reads (`recordingGroup` flags flattened). -/
structure Recorder where
  name : String
  includeGlobalResources : Bool
  allSupported : Bool
deriving DecidableEq

/-- One entry of `describe_configuration_recorder_status`. -/
structure RecorderStatus where
  name : String
  recording : Bool
  lastStatus : String
deriving DecidableEq

/-- The `status` dict built by `ConfigEnabled.process`
(`{s['name']: s for s in ...}`; a later entry overrides an earlier one). -/
def lookupStatus (sl : List RecorderStatus) (n : String) :
    Option RecorderStatus :=
  sl.reverse.find? (fun s => s.name == n)

/-- The `check-config` filter configuration: `all-resources` and
`global-resources` are plain `.get` booleans, `running` is
`.get('running', True)`. -/
structure ConfigData where
  allResources : Bool
  running : Option Bool
  globalResources : Bool
deriving DecidableEq

/-- The account pseudo-resource record: the two provider-native fields
plus the annotation keys the account filters attach.  `iam_summary` and
`password_policy` are open mappings in the source; they are modelled as
association lists of numeric-valued fields (the representation the
ValueFilter matching is applied to). -/
structure Account where
  account_id : String
  account_name : String
  cloudtrails : Option (List Trail)
  config_recorders : Option (List Recorder)
  config_channels : Option (List Channel)
  config_status : Option (List RecorderStatus)
  iam_summary : Option (List (String × Int))
  password_policy : Option (List (String × Int))
deriving DecidableEq

/-! ## account.py : CloudTrailEnabled -/

/-- The trail-status sub-predicate of the `running` dimension:
`status['IsLogging'] and not status.get('LatestDeliveryError')`. -/
def CloudTrailEnabled.trailRunning (statusOf : String → TrailStatus)
    (t : Trail) : Bool :=
  (statusOf t.TrailARN).IsLogging &&
    (statusOf t.TrailARN).LatestDeliveryError == ""

/-- The trail-filtering pipeline of `CloudTrailEnabled.process`
(lines 62-84): six plain-`.get`-gated comprehensions followed by the
`running` dimension, which is gated by `.get('running', True)`. -/
def CloudTrailEnabled.survivingTrails (d : CloudTrailData)
    (statusOf : String → TrailStatus) (trails : List Trail) : List Trail :=
  let ts := trails
  let ts := if d.globalEvents then
      ts.filter (fun t => t.IncludeGlobalServiceEvents) else ts
  let ts := if d.kms then ts.filter (fun t => t.KmsKeyId != "") else ts
  let ts := if d.kmsKey != "" then
      ts.filter (fun t => t.KmsKeyId == d.kmsKey) else ts
  let ts := if d.fileDigest then
      ts.filter (fun t => t.LogFileValidationEnabled) else ts
  let ts := if d.multiRegion then
      ts.filter (fun t => t.IsMultiRegionTrail) else ts
  let ts := if d.notifies then ts.filter (fun t => t.SNSTopicArn != "") else ts
  if d.running.getD true then
    ts.filter (CloudTrailEnabled.trailRunning statusOf)
  else ts

/-- The conjunction of the gated sub-predicates: a trail survives the
pipeline iff every enabled dimension accepts it. -/
def CloudTrailEnabled.trailSurvivesAll (d : CloudTrailData)
    (statusOf : String → TrailStatus) (t : Trail) : Bool :=
  (!d.globalEvents || t.IncludeGlobalServiceEvents) &&
  (!d.kms || t.KmsKeyId != "") &&
  (!(d.kmsKey != "") || t.KmsKeyId == d.kmsKey) &&
  (!d.fileDigest || t.LogFileValidationEnabled) &&
  (!d.multiRegion || t.IsMultiRegionTrail) &&
  (!d.notifies || t.SNSTopicArn != "") &&
  (!(d.running.getD true) || CloudTrailEnabled.trailRunning statusOf t)

/-- `CloudTrailEnabled.process`: annotates `resources[0]` with the raw
trail list under `cloudtrails`, filters the trails, and returns the empty
list when some trail survives, the (annotated) resource list otherwise.
The result pairs the mutated `resources[0]` (the in-place side effect)
with the returned list.  An empty resource list raises `IndexError` at
the annotation subscript. -/
def CloudTrailEnabled.process (d : CloudTrailData) (trails : List Trail)
    (statusOf : String → TrailStatus) (resources : List Account) :
    Except PyError (Account × List Account) :=
  match resources with
  | [] => .error .indexError
  | r0 :: rest =>
    let r0 := { r0 with cloudtrails := some trails }
    if (CloudTrailEnabled.survivingTrails d statusOf trails).isEmpty then
      .ok (r0, r0 :: rest)
    else .ok (r0, [])

/-! ## account.py : ConfigEnabled -/

/-- Python `str.lower()` on one character (ASCII case mapping, the range
the provider's status strings use). -/
def pyLowerChar (c : Char) : Char :=
  if 'A' ≤ c ∧ c ≤ 'Z' then Char.ofNat (c.toNat + 32) else c

/-- Python `str.lower()` (ASCII case mapping). -/
def pyLower (s : String) : String :=
  String.mk (s.data.map pyLowerChar)

/-- The recorder-status sub-predicate of the `running` dimension:
`status[name]['recording'] and status[name]['lastStatus'].lower() in
('pending', 'success')`, on an already-resolved status entry. -/
def ConfigEnabled.statusOk : Option RecorderStatus → Bool
  | some s => s.recording &&
      (pyLower s.lastStatus == "pending" || pyLower s.lastStatus == "success")
  | none => false

/-- The two plain-`.get`-gated recorder comprehensions of
`ConfigEnabled.process` (lines 110-115). -/
def ConfigEnabled.gatedRecorders (d : ConfigData)
    (recorders : List Recorder) : List Recorder :=
  let rs := if d.globalResources then
      recorders.filter (fun r => r.includeGlobalResources) else recorders
  if d.allResources then rs.filter (fun r => r.allSupported) else rs

/-- The `running` comprehension (lines 121-124): each recorder's name is
looked up in the status dict; a missing name raises `KeyError` (the dict
subscript), otherwise the recorder is kept when its status passes. -/
def ConfigEnabled.filterRunning (statusMap : String → Option RecorderStatus) :
    List Recorder → Except PyError (List Recorder)
  | [] => .ok []
  | r :: rest =>
    match statusMap r.name with
    | none => .error (.keyError r.name)
    | some s =>
      match ConfigEnabled.filterRunning statusMap rest with
      | .error e => .error e
      | .ok rest' =>
        if s.recording && (pyLower s.lastStatus == "pending" ||
            pyLower s.lastStatus == "success")
        then .ok (r :: rest') else .ok rest'

/-- The full recorder pipeline of `ConfigEnabled.process`: the gated
comprehensions, then — only when `.get('running', True)` holds and the
gated list is non-empty — the status-based `running` comprehension. -/
def ConfigEnabled.survivingRecorders (d : ConfigData)
    (statusList : List RecorderStatus) (recorders : List Recorder) :
    Except PyError (List Recorder) :=
  let rs := ConfigEnabled.gatedRecorders d recorders
  if d.running.getD true && !rs.isEmpty then
    ConfigEnabled.filterRunning (lookupStatus statusList) rs
  else .ok rs

/-- The conjunction of the gated recorder sub-predicates. -/
def ConfigEnabled.recSurvivesAll (d : ConfigData)
    (statusList : List RecorderStatus) (r : Recorder) : Bool :=
  (!d.globalResources || r.includeGlobalResources) &&
  (!d.allResources || r.allSupported) &&
  (!(d.running.getD true) ||
    ConfigEnabled.statusOk (lookupStatus statusList r.name))

/-- `ConfigEnabled.process`: annotates `resources[0]` with the raw
recorder and channel lists (and, when the `running` branch is taken, the
status dict), runs the recorder pipeline, and returns the empty list when
both a channel and a surviving recorder exist, the resource list
otherwise.  An empty resource list raises `IndexError`. -/
def ConfigEnabled.process (d : ConfigData) (channels : List Channel)
    (recorders : List Recorder) (statusList : List RecorderStatus)
    (resources : List Account) : Except PyError (Account × List Account) :=
  match resources with
  | [] => .error .indexError
  | r0 :: rest =>
    let a1 := { r0 with config_recorders := some recorders,
                        config_channels := some channels }
    let rs := ConfigEnabled.gatedRecorders d recorders
    let step : Except PyError (Account × List Recorder) :=
      if d.running.getD true && !rs.isEmpty then
        match ConfigEnabled.filterRunning (lookupStatus statusList) rs with
        | .error e => .error e
        | .ok rs' => .ok ({ a1 with config_status := some statusList }, rs')
      else .ok (a1, rs)
    match step with
    | .error e => .error e
    | .ok (a2, rsF) =>
      if !channels.isEmpty && !rsF.isEmpty then .ok (a2, [])
      else .ok (a2, a2 :: rest)

/-! ## account.py : IAMSummary and AccountPasswordPolicy -/

/-- `IAMSummary.process`: lazily caches the `get_account_summary` result
on `resources[0]` under `iam_summary` (re-fetching when the annotation is
missing or empty, i.e. falsy), then applies the ValueFilter match to the
cached mapping.  `matchf` abstracts `ValueFilter.match` (a pure predicate
on the mapping); `apiSummary` is the data the provider call would return.
The result records the mutated `resources[0]`, the returned list, and
whether the provider call was issued. -/
def IAMSummary.process (matchf : List (String × Int) → Bool)
    (apiSummary : List (String × Int)) (resources : List Account) :
    Except PyError (Account × List Account × Bool) :=
  match resources with
  | [] => .error .indexError
  | r0 :: rest =>
    let fetch := (r0.iam_summary.getD []).isEmpty
    let r0 := if fetch then { r0 with iam_summary := some apiSummary } else r0
    if matchf (r0.iam_summary.getD []) then .ok (r0, r0 :: rest, fetch)
    else .ok (r0, [], fetch)

/-- `AccountPasswordPolicy.process`: same lazy-caching shape under the
`password_policy` key, with `apiPolicy` the provider's
`get_account_password_policy().get('PasswordPolicy', {})`. -/
def AccountPasswordPolicy.process (matchf : List (String × Int) → Bool)
    (apiPolicy : List (String × Int)) (resources : List Account) :
    Except PyError (Account × List Account × Bool) :=
  match resources with
  | [] => .error .indexError
  | r0 :: rest =>
    let fetch := (r0.password_policy.getD []).isEmpty
    let r0 := if fetch then { r0 with password_policy := some apiPolicy }
              else r0
    if matchf (r0.password_policy.getD []) then .ok (r0, r0 :: rest, fetch)
    else .ok (r0, [], fetch)

/-! ## account.py : the eighty-percent attribute-threshold filters -/

/-- One `describe_account_attributes` entry; `AttributeValue` is the
(integer-parsed) first element of its `AttributeValues` list, the only
part the code reads. -/
structure AccountAttribute where
  AttributeName : String
  AttributeValue : Int
deriving DecidableEq

/-- An elastic-IP address record. -/
structure Address where
  PublicIp : String
  Domain : String
deriving DecidableEq

/-- `AccountAttributesFilter.get_attribute_count`: builds the
name-indexed dict (later entries override earlier ones) and returns the
attribute's value, or `None` when the attribute is absent. -/
def AccountAttributesFilter.get_attribute_count
    (attrs : List AccountAttribute) (attr : String) : Option Int :=
  match attrs.reverse.find? (fun a => a.AttributeName == attr) with
  | none => none
  | some a => some a.AttributeValue

/-- The shared body of the three threshold filters:
`if not quota or count*100/quota < 80: return False` / `return True`,
with Python-2 floor division (`Int.fdiv`).  `not quota` is truthy exactly
for `None` and `0`. -/
def eightyPercentCheck (quota : Option Int) (count : Int) : Bool :=
  match quota with
  | none => false
  | some m =>
    if m = 0 then false
    else if (count * 100).fdiv m < 80 then false else true

/-- `AccountMaxInstances.__call__`: quota is the `max-instances` account
attribute, usage the number of EC2 instances. -/
def AccountMaxInstances.call (attrs : List AccountAttribute)
    (instanceCount : Nat) : Bool :=
  eightyPercentCheck
    (AccountAttributesFilter.get_attribute_count attrs "max-instances")
    (instanceCount : Int)

/-- `AccountMaxElasticIPs.__call__`: quota is the `max-elastic-ips`
attribute, usage the number of addresses with `Domain == 'standard'`. -/
def AccountMaxElasticIPs.call (attrs : List AccountAttribute)
    (addresses : List Address) : Bool :=
  eightyPercentCheck
    (AccountAttributesFilter.get_attribute_count attrs "max-elastic-ips")
    ((addresses.filter (fun a => a.Domain == "standard")).length : Int)

/-- `AccountMaxVpcElasticIPs.__call__`: quota is the
`vpc-max-elastic-ips` attribute, usage the number of addresses with
`Domain == 'vpc'`. -/
def AccountMaxVpcElasticIPs.call (attrs : List AccountAttribute)
    (addresses : List Address) : Bool :=
  eightyPercentCheck
    (AccountAttributesFilter.get_attribute_count attrs "vpc-max-elastic-ips")
    ((addresses.filter (fun a => a.Domain == "vpc")).length : Int)

/-! ## Helper lemmas -/

/-- Membership in one gated comprehension stage. -/
theorem mem_gate {b : Bool} {p : α → Bool} {l : List α} {t : α} :
    t ∈ (if b then l.filter p else l) ↔ t ∈ l ∧ (b = true → p t = true) := by
  cases b <;> simp [List.mem_filter]

/-! ## Claim theorems -/

/-- C1: the `retention` action's per-resource step is monotonic
non-decreasing: when the cluster's current `BackupRetentionPeriod` is at
least the configured `days` no modify request is issued and the unit
returns `None` (the resource is untouched); when it is strictly smaller,
exactly one `modify_db_cluster` request is issued, carrying
`BackupRetentionPeriod = days` and the resource's existing
`PreferredBackupWindow` and `PreferredMaintenanceWindow` unchanged. -/
theorem retention_monotonic_nondecreasing (days : Int)
    (api : ModifyCall → Option PyError) (r : Cluster) :
    (days ≤ r.BackupRetentionPeriod.getD 0 →
      RetentionWindow.process_snapshot_retention days api r = ([], .ok none))
    ∧ (r.BackupRetentionPeriod.getD 0 < days →
      (RetentionWindow.process_snapshot_retention days api r).1 =
        [⟨r.DBClusterIdentifier, days,
          r.PreferredBackupWindow, r.PreferredMaintenanceWindow⟩]) := by
  constructor
  · intro h
    simp [RetentionWindow.process_snapshot_retention, not_lt.mpr h]
  · intro h
    simp [RetentionWindow.process_snapshot_retention, h,
      RetentionWindow.set_retention_window, max_eq_right (le_of_lt h)]

/-- Witness for C1: current=7, requested=5 gives no call and no mutation;
current=5, requested=7 gives exactly one call with retention 7 and the
windows passed through. -/
theorem retention_monotonic_nondecreasing_witness :
    (RetentionWindow.process_snapshot_retention 5 (fun _ => none)
        ⟨"db1", some 7, "bw", "mw"⟩ = ([], .ok none))
    ∧ (RetentionWindow.process_snapshot_retention 7 (fun _ => none)
        ⟨"db1", some 5, "bw", "mw"⟩).1 = [⟨"db1", 7, "bw", "mw"⟩] :=
  ⟨(retention_monotonic_nondecreasing 5 (fun _ => none)
      ⟨"db1", some 7, "bw", "mw"⟩).1 (by decide),
   (retention_monotonic_nondecreasing 7 (fun _ => none)
      ⟨"db1", some 5, "bw", "mw"⟩).2 (by decide)⟩

/-- C9: every account-level filter's `process` reads `resources[0]`
unconditionally, so on an empty resource list each of `check-cloudtrail`,
`check-config`, `iam-summary` and `password-policy` fails with an
`IndexError` instead of returning an empty result. -/
theorem account_filters_require_nonempty (d1 : CloudTrailData)
    (trails : List Trail) (statusOf : String → TrailStatus)
    (d2 : ConfigData) (channels : List Channel) (recorders : List Recorder)
    (statusList : List RecorderStatus)
    (mf pf : List (String × Int) → Bool)
    (apiS apiP : List (String × Int)) :
    CloudTrailEnabled.process d1 trails statusOf [] = .error .indexError
    ∧ ConfigEnabled.process d2 channels recorders statusList [] =
        .error .indexError
    ∧ IAMSummary.process mf apiS [] = .error .indexError
    ∧ AccountPasswordPolicy.process pf apiP [] = .error .indexError :=
  ⟨rfl, rfl, rfl, rfl⟩

/-- C4: each eighty-percent attribute-threshold filter returns `False`
(and, the division being guarded, never divides) when the quota attribute
is missing or zero; for a positive quota it returns `True` exactly when
`usage*100/quota` is at least 80, i.e. `80*quota ≤ 100*usage`. -/
theorem eighty_percent_threshold_guards (attrs : List AccountAttribute)
    (instanceCount : Nat) (addresses : List Address) :
    (AccountAttributesFilter.get_attribute_count attrs "max-instances" = none
        ∨ AccountAttributesFilter.get_attribute_count attrs "max-instances"
            = some 0 →
      AccountMaxInstances.call attrs instanceCount = false)
    ∧ (∀ m : Int, 0 < m →
        AccountAttributesFilter.get_attribute_count attrs "max-instances"
          = some m →
        (AccountMaxInstances.call attrs instanceCount = true ↔
          80 * m ≤ (instanceCount : Int) * 100))
    ∧ (AccountAttributesFilter.get_attribute_count attrs "max-elastic-ips"
          = none
        ∨ AccountAttributesFilter.get_attribute_count attrs "max-elastic-ips"
            = some 0 →
      AccountMaxElasticIPs.call attrs addresses = false)
    ∧ (∀ m : Int, 0 < m →
        AccountAttributesFilter.get_attribute_count attrs "max-elastic-ips"
          = some m →
        (AccountMaxElasticIPs.call attrs addresses = true ↔
          80 * m ≤
            ((addresses.filter (fun a => a.Domain == "standard")).length : Int)
              * 100))
    ∧ (AccountAttributesFilter.get_attribute_count attrs
          "vpc-max-elastic-ips" = none
        ∨ AccountAttributesFilter.get_attribute_count attrs
            "vpc-max-elastic-ips" = some 0 →
      AccountMaxVpcElasticIPs.call attrs addresses = false)
    ∧ (∀ m : Int, 0 < m →
        AccountAttributesFilter.get_attribute_count attrs
          "vpc-max-elastic-ips" = some m →
        (AccountMaxVpcElasticIPs.call attrs addresses = true ↔
          80 * m ≤
            ((addresses.filter (fun a => a.Domain == "vpc")).length : Int)
              * 100)) := by
  have key : ∀ (q : Option Int) (c : Int),
      ((q = none ∨ q = some 0) → eightyPercentCheck q c = false)
      ∧ (∀ m : Int, 0 < m → q = some m →
          (eightyPercentCheck q c = true ↔ 80 * m ≤ c * 100)) := by
    intro q c
    constructor
    · rintro (rfl | rfl) <;> simp [eightyPercentCheck]
    · rintro m hm rfl
      have hm0 : m ≠ 0 := ne_of_gt hm
      have hfd : (c * 100).fdiv m = (c * 100) / m :=
        Int.fdiv_eq_ediv _ (le_of_lt hm)
      simp only [eightyPercentCheck, if_neg hm0, hfd]
      rcases lt_or_ge ((c * 100) / m) 80 with h | h
      · simp only [if_pos h]
        constructor
        · intro hfalse; exact absurd hfalse (by simp)
        · intro hle
          exact absurd ((Int.ediv_lt_iff_lt_mul hm).mp h)
            (not_lt.mpr (by linarith))
      · simp only [if_neg (not_lt.mpr h)]
        constructor
        · intro _
          have := (Int.le_ediv_iff_mul_le hm).mp h
          linarith
        · intro _; trivial
  exact ⟨(key _ _).1, fun m hm he => (key _ _).2 m hm he,
         (key _ _).1, fun m hm he => (key _ _).2 m hm he,
         (key _ _).1, fun m hm he => (key _ _).2 m hm he⟩

/-- Witness for C4: with the quota attribute absent the instance filter
returns false; with quota 10 and 8 standard addresses the elastic-IP
filter matches (80%); with quota 10 and 7 vpc addresses the vpc filter
does not match. -/
theorem eighty_percent_threshold_guards_witness :
    AccountMaxInstances.call [] 5 = false
    ∧ (AccountMaxElasticIPs.call [⟨"max-elastic-ips", 10⟩]
        (List.replicate 8 ⟨"ip", "standard"⟩) = true)
    ∧ AccountMaxVpcElasticIPs.call [⟨"vpc-max-elastic-ips", 10⟩]
        (List.replicate 7 ⟨"ip", "vpc"⟩) ≠ true := by
  refine ⟨(eighty_percent_threshold_guards [] 5 []).1 (Or.inl (by decide)),
    ((eighty_percent_threshold_guards [⟨"max-elastic-ips", 10⟩]
        0 (List.replicate 8 ⟨"ip", "standard"⟩)).2.2.2.1 10 (by decide)
        (by decide)).mpr (by decide),
    fun h => ?_⟩
  have := ((eighty_percent_threshold_guards [⟨"vpc-max-elastic-ips", 10⟩]
      0 (List.replicate 7 ⟨"ip", "vpc"⟩)).2.2.2.2.2 10 (by decide)
      (by decide)).mp h
  revert this
  decide

/-- C5 (code evaluated at the failing input): the claim and its spec
sentence require a `ClientError` with code `InvalidDBClusterStateFault`
to be swallowed and processing to continue with the remaining clusters.
`rdscluster.py` never imports `ClientError`, so when the provider call
for `cluster-a` raises that error, evaluating the `except ClientError`
clause raises `NameError('ClientError')` instead: the error escapes, no
later cluster is processed, and the result is not the swallow-and-go-on
outcome the claim describes (`(["cluster-b"], none)`). -/
theorem delete_clienterror_nameerror :
    Delete.process
      (fun req => if req.DBClusterIdentifier = "cluster-a" then
          some "InvalidDBClusterStateFault" else none)
      true
      [⟨"cluster-a", some 7, "bw", "mw"⟩, ⟨"cluster-b", some 7, "bw", "mw"⟩]
      = ([], some (.nameError "ClientError"))
    ∧ Delete.process
      (fun req => if req.DBClusterIdentifier = "cluster-a" then
          some "InvalidDBClusterStateFault" else none)
      true
      [⟨"cluster-a", some 7, "bw", "mw"⟩, ⟨"cluster-b", some 7, "bw", "mw"⟩]
      ≠ (["cluster-b"], none) := by
  constructor
  · rfl
  · decide

/-- C10 counterexample: the claim says a client error raised by the
per-snapshot delete call is re-raised (its handler being an identity
re-raise).  At a batch whose first snapshot's delete raises a client
error with code `SomeOtherFault`, the error that actually escapes is
`NameError('ClientError')` — the handler's class name never resolves in
this module — not the client error the claim says is re-raised. -/
theorem snapshot_set_reraise_counterexample :
    (RDSClusterSnapshotDelete.process_snapshot_set
      (fun sid => if sid = "snap-a" then some "SomeOtherFault" else none)
      [⟨"snap-a"⟩, ⟨"snap-b"⟩]).2 = some (.nameError "ClientError")
    ∧ (RDSClusterSnapshotDelete.process_snapshot_set
      (fun sid => if sid = "snap-a" then some "SomeOtherFault" else none)
      [⟨"snap-a"⟩, ⟨"snap-b"⟩]).2 ≠ some (.clientError "SomeOtherFault") := by
  constructor
  · rfl
  · decide

/-- C10 amended: the bulk snapshot delete swallows no error codes — any
failing per-snapshot delete call (whatever its code, including
"already deleted" codes) aborts the remainder of its batch with a
propagated error; because `rdscluster.py` never imports `ClientError`,
the propagated error is `NameError('ClientError')` rather than the
original client error being re-raised.  Snapshots before the failing one
are deleted; the failing one and everything after it are not. -/
theorem snapshot_delete_aborts_batch (api : String → Option String)
    (pre post : List Snap) (s : Snap) (code : String)
    (hpre : ∀ t ∈ pre, api t.DBClusterSnapshotIdentifier = none)
    (hs : api s.DBClusterSnapshotIdentifier = some code) :
    RDSClusterSnapshotDelete.process_snapshot_set api (pre ++ s :: post) =
      (pre.map (fun t => t.DBClusterSnapshotIdentifier),
       some (.nameError "ClientError")) := by
  induction pre with
  | nil =>
    simp [RDSClusterSnapshotDelete.process_snapshot_set, hs,
      moduleHasClientError, rdsclusterImportedNames]
  | cons t ts ih =>
    have ht : api t.DBClusterSnapshotIdentifier = none :=
      hpre t (List.mem_cons_self t ts)
    have ih' := ih (fun u hu => hpre u (List.mem_cons_of_mem t hu))
    simp [RDSClusterSnapshotDelete.process_snapshot_set, ht, ih']

/-- Witness for C10's amended theorem: in a batch of three snapshots
whose middle delete raises an "already deleted" client error, only the
first snapshot is deleted and `NameError('ClientError')` escapes. -/
theorem snapshot_delete_aborts_batch_witness :
    RDSClusterSnapshotDelete.process_snapshot_set
      (fun sid => if sid = "snap-b" then
          some "InvalidDBClusterSnapshotStateFault" else none)
      [⟨"snap-a"⟩, ⟨"snap-b"⟩, ⟨"snap-c"⟩] =
      (["snap-a"], some (.nameError "ClientError")) :=
  snapshot_delete_aborts_batch
    (fun sid => if sid = "snap-b" then
        some "InvalidDBClusterSnapshotStateFault" else none)
    [⟨"snap-a"⟩] [⟨"snap-c"⟩] ⟨"snap-b"⟩ "InvalidDBClusterSnapshotStateFault"
    (by decide) (by decide)

/-- A gated boolean conjunct, as an implication. -/
theorem gate_bool {b p : Bool} : (!b || p) = true ↔ (b = true → p = true) := by
  cases b <;> simp

/-- A trail survives the `check-cloudtrail` pipeline iff it is one of the
input trails and every enabled dimension accepts it. -/
theorem CloudTrailEnabled.mem_survivingTrails {d : CloudTrailData}
    {statusOf : String → TrailStatus} {trails : List Trail} {t : Trail} :
    t ∈ CloudTrailEnabled.survivingTrails d statusOf trails ↔
      t ∈ trails ∧ CloudTrailEnabled.trailSurvivesAll d statusOf t = true := by
  simp only [CloudTrailEnabled.survivingTrails,
    CloudTrailEnabled.trailSurvivesAll, mem_gate, Bool.and_eq_true, gate_bool]
  tauto

/-- The pipeline keeps no trail out of an empty trail list. -/
theorem CloudTrailEnabled.survivingTrails_nil {d : CloudTrailData}
    {statusOf : String → TrailStatus} :
    CloudTrailEnabled.survivingTrails d statusOf [] = [] := by
  rw [List.eq_nil_iff_forall_not_mem]
  intro t ht
  have := CloudTrailEnabled.mem_survivingTrails.mp ht
  simp at this

/-- C2: the CloudTrail composite filter annotates the first (account)
resource with the raw trail list under `cloudtrails`, and only then
decides: with zero trails it returns the (annotated) account resource
list itself; with at least one trail surviving every enabled
sub-predicate it returns the empty list.  In both cases the returned
first component — the mutated `resources[0]` — carries the annotation. -/
theorem cloudtrail_annotate_then_decide (d : CloudTrailData)
    (statusOf : String → TrailStatus) (trails : List Trail)
    (a : Account) (rest : List Account) :
    (trails = [] →
      CloudTrailEnabled.process d trails statusOf (a :: rest) =
        .ok ({a with cloudtrails := some trails},
             {a with cloudtrails := some trails} :: rest))
    ∧ ((∃ t ∈ trails,
          CloudTrailEnabled.trailSurvivesAll d statusOf t = true) →
      CloudTrailEnabled.process d trails statusOf (a :: rest) =
        .ok ({a with cloudtrails := some trails}, [])) := by
  constructor
  · rintro rfl
    simp [CloudTrailEnabled.process, CloudTrailEnabled.survivingTrails_nil]
  · rintro ⟨t, ht, hall⟩
    have hmem : t ∈ CloudTrailEnabled.survivingTrails d statusOf trails :=
      CloudTrailEnabled.mem_survivingTrails.mpr ⟨ht, hall⟩
    have hne : (CloudTrailEnabled.survivingTrails d statusOf trails).isEmpty
        = false := by
      rcases h : CloudTrailEnabled.survivingTrails d statusOf trails with
        _ | _
      · rw [h] at hmem; simp at hmem
      · rfl
    simp [CloudTrailEnabled.process, hne]

/-- Witness for C2: with every sub-predicate flag present-and-false (so
no dimension filters) and one trail, the filter is compliant and returns
the empty list; with zero trails it returns the annotated account. -/
theorem cloudtrail_annotate_then_decide_witness :
    CloudTrailEnabled.process ⟨false, false, some false, false, false,
        false, ""⟩ [⟨"arn1", false, "", false, false, ""⟩]
      (fun _ => ⟨false, ""⟩)
      [⟨"123", "acct", none, none, none, none, none, none⟩] =
      .ok (⟨"123", "acct",
            some [⟨"arn1", false, "", false, false, ""⟩],
            none, none, none, none, none⟩, [])
    ∧ CloudTrailEnabled.process ⟨false, false, some false, false, false,
        false, ""⟩ [] (fun _ => ⟨false, ""⟩)
      [⟨"123", "acct", none, none, none, none, none, none⟩] =
      .ok (⟨"123", "acct", some [], none, none, none, none, none⟩,
           [⟨"123", "acct", some [], none, none, none, none, none⟩]) :=
  ⟨(cloudtrail_annotate_then_decide ⟨false, false, some false, false,
      false, false, ""⟩ (fun _ => ⟨false, ""⟩)
      [⟨"arn1", false, "", false, false, ""⟩]
      ⟨"123", "acct", none, none, none, none, none, none⟩ []).2
    ⟨⟨"arn1", false, "", false, false, ""⟩, by decide, by decide⟩,
   (cloudtrail_annotate_then_decide ⟨false, false, some false, false,
      false, false, ""⟩ (fun _ => ⟨false, ""⟩) []
      ⟨"123", "acct", none, none, none, none, none, none⟩ []).1 rfl⟩

/-- Membership in the two plain-gated recorder comprehensions. -/
theorem ConfigEnabled.mem_gatedRecorders {dc : ConfigData}
    {recorders : List Recorder} {r : Recorder} :
    r ∈ ConfigEnabled.gatedRecorders dc recorders ↔
      r ∈ recorders
        ∧ (dc.globalResources = true → r.includeGlobalResources = true)
        ∧ (dc.allResources = true → r.allSupported = true) := by
  simp only [ConfigEnabled.gatedRecorders, mem_gate]
  tauto

/-- When every recorder's name has a status entry, the `running`
comprehension succeeds and keeps exactly the recorders whose status
passes. -/
theorem ConfigEnabled.filterRunning_eq
    (statusMap : String → Option RecorderStatus) (l : List Recorder)
    (h : ∀ r ∈ l, (statusMap r.name).isSome) :
    ConfigEnabled.filterRunning statusMap l =
      .ok (l.filter (fun r => ConfigEnabled.statusOk (statusMap r.name))) := by
  induction l with
  | nil => rfl
  | cons r rest ih =>
    obtain ⟨s, hs⟩ := Option.isSome_iff_exists.mp
      (h r (List.mem_cons_self r rest))
    rw [ConfigEnabled.filterRunning, hs,
      ih (fun u hu => h u (List.mem_cons_of_mem r hu))]
    simp only [List.filter_cons, hs, ConfigEnabled.statusOk]
    split <;> rfl

/-- C3 counterexample: the claim says every boolean sub-predicate flag
that is absent from the filter configuration leaves that dimension
unfiltered, "for every flag including `running`".  For the
`check-cloudtrail` filter over one non-logging trail, the configuration
with `running` absent filters the trail out (the code reads
`self.data.get('running', True)`, so the dimension defaults to enabled),
while the configuration with the `running` check disabled keeps it: the
two surviving sets differ, refuting the claim at this input. -/
theorem running_default_on_counterexample :
    CloudTrailEnabled.survivingTrails
        ⟨false, false, none, false, false, false, ""⟩
        (fun _ => ⟨false, ""⟩) [⟨"arn1", false, "", false, false, ""⟩] = []
    ∧ CloudTrailEnabled.survivingTrails
        ⟨false, false, some false, false, false, false, ""⟩
        (fun _ => ⟨false, ""⟩) [⟨"arn1", false, "", false, false, ""⟩] =
        [⟨"arn1", false, "", false, false, ""⟩]
    ∧ ([] : List Trail) ≠ [⟨"arn1", false, "", false, false, ""⟩] := by
  refine ⟨rfl, rfl, by decide⟩

/-- C3 amended: for both composite account filters, every sub-predicate
flag other than `running` constrains the surviving sub-resources only
when it is set (absent, modelled falsy, imposes no constraint), while the
`running` sub-predicate is applied by default when its flag is absent
(`.get('running', True)`): a sub-resource survives iff it is in the input
and every dimension whose flag evaluates enabled accepts it.  For
`check-config` this holds whenever every recorder has a status entry (a
missing entry raises `KeyError` instead). -/
theorem flag_gating_characterization (d : CloudTrailData)
    (statusOf : String → TrailStatus) (trails : List Trail) (t : Trail)
    (dc : ConfigData) (statusList : List RecorderStatus)
    (recorders : List Recorder)
    (hstat : ∀ r ∈ recorders, (lookupStatus statusList r.name).isSome) :
    (t ∈ CloudTrailEnabled.survivingTrails d statusOf trails ↔
      t ∈ trails
        ∧ (d.globalEvents = true → t.IncludeGlobalServiceEvents = true)
        ∧ (d.kms = true → (t.KmsKeyId != "") = true)
        ∧ ((d.kmsKey != "") = true → (t.KmsKeyId == d.kmsKey) = true)
        ∧ (d.fileDigest = true → t.LogFileValidationEnabled = true)
        ∧ (d.multiRegion = true → t.IsMultiRegionTrail = true)
        ∧ (d.notifies = true → (t.SNSTopicArn != "") = true)
        ∧ (d.running.getD true = true →
            CloudTrailEnabled.trailRunning statusOf t = true))
    ∧ (∃ l, ConfigEnabled.survivingRecorders dc statusList recorders = .ok l
        ∧ ∀ r : Recorder, r ∈ l ↔
            r ∈ recorders
              ∧ (dc.globalResources = true → r.includeGlobalResources = true)
              ∧ (dc.allResources = true → r.allSupported = true)
              ∧ (dc.running.getD true = true →
                  ConfigEnabled.statusOk
                    (lookupStatus statusList r.name) = true)) := by
  constructor
  · rw [CloudTrailEnabled.mem_survivingTrails]
    simp only [CloudTrailEnabled.trailSurvivesAll, Bool.and_eq_true,
      gate_bool]
    tauto
  · unfold ConfigEnabled.survivingRecorders
    rcases hrun : dc.running.getD true with _ | _
    · refine ⟨ConfigEnabled.gatedRecorders dc recorders, by simp [hrun], ?_⟩
      intro r
      rw [ConfigEnabled.mem_gatedRecorders]
      simp [hrun]
    · rcases hempty : (ConfigEnabled.gatedRecorders dc recorders).isEmpty
        with _ | _
      · have hsub : ∀ r ∈ ConfigEnabled.gatedRecorders dc recorders,
            (lookupStatus statusList r.name).isSome := fun r hr =>
          hstat r (ConfigEnabled.mem_gatedRecorders.mp hr).1
        refine ⟨(ConfigEnabled.gatedRecorders dc recorders).filter
            (fun r => ConfigEnabled.statusOk (lookupStatus statusList r.name)),
          ?_, ?_⟩
        · simp only [hrun, hempty, Bool.not_false, Bool.and_self, if_pos]
          exact ConfigEnabled.filterRunning_eq _ _ hsub
        · intro r
          rw [List.mem_filter, ConfigEnabled.mem_gatedRecorders]
          simp [hrun]
          tauto
      · have hnil : ConfigEnabled.gatedRecorders dc recorders = [] :=
          List.isEmpty_iff.mp hempty
        refine ⟨ConfigEnabled.gatedRecorders dc recorders, by
          simp [hrun, hempty], ?_⟩
        intro r
        rw [hnil]
        simp only [List.not_mem_nil, false_iff]
        rintro ⟨hr, hg, ha, _⟩
        have : r ∈ ConfigEnabled.gatedRecorders dc recorders :=
          ConfigEnabled.mem_gatedRecorders.mpr ⟨hr, hg, ha⟩
        rw [hnil] at this
        simp at this

/-- Witness for C3's amended theorem: with every flag disabled except the
defaulted `running`, a logging trail survives `check-cloudtrail` and a
recording recorder with a `SUCCESS` status survives `check-config`. -/
theorem flag_gating_characterization_witness :
    (⟨"arn1", false, "", false, false, ""⟩ : Trail) ∈
      CloudTrailEnabled.survivingTrails
        ⟨false, false, none, false, false, false, ""⟩
        (fun _ => ⟨true, ""⟩) [⟨"arn1", false, "", false, false, ""⟩]
    ∧ ∃ l, ConfigEnabled.survivingRecorders ⟨false, none, false⟩
        [⟨"rec1", true, "SUCCESS"⟩] [⟨"rec1", true, true⟩] = .ok l
        ∧ (⟨"rec1", true, true⟩ : Recorder) ∈ l := by
  have h := flag_gating_characterization
    ⟨false, false, none, false, false, false, ""⟩ (fun _ => ⟨true, ""⟩)
    [⟨"arn1", false, "", false, false, ""⟩]
    ⟨"arn1", false, "", false, false, ""⟩
    ⟨false, none, false⟩ [⟨"rec1", true, "SUCCESS"⟩] [⟨"rec1", true, true⟩]
    (by decide)
  constructor
  · exact h.1.mpr (by refine ⟨by decide, by decide, by decide, by decide,
      by decide, by decide, by decide, by decide⟩)
  · obtain ⟨l, hl, hmem⟩ := h.2
    exact ⟨l, hl, (hmem ⟨"rec1", true, true⟩).mpr
      ⟨by decide, by decide, by decide, by decide⟩⟩

/-- C7: the `iam-summary` and `password-policy` ValueFilters cache their
API lookup as an annotation on the account record: when the record
already carries a non-empty `iam_summary` (resp. `password_policy`)
annotation, `process` issues no provider call (the fetch flag is false),
leaves the record unchanged, and its boolean decision depends only on the
cached value — so evaluating the filter again on the same record, even
against a different provider, yields the identical result. -/
theorem value_filter_cached_annotation
    (mf pf : List (String × Int) → Bool)
    (api api2 papi papi2 : List (String × Int)) (r0 : Account)
    (rest : List Account) (s p : List (String × Int))
    (h1 : r0.iam_summary = some s) (h2 : s ≠ [])
    (h3 : r0.password_policy = some p) (h4 : p ≠ []) :
    IAMSummary.process mf api (r0 :: rest) =
      .ok (r0, (if mf s then r0 :: rest else []), false)
    ∧ IAMSummary.process mf api2 (r0 :: rest) =
        IAMSummary.process mf api (r0 :: rest)
    ∧ AccountPasswordPolicy.process pf papi (r0 :: rest) =
        .ok (r0, (if pf p then r0 :: rest else []), false)
    ∧ AccountPasswordPolicy.process pf papi2 (r0 :: rest) =
        AccountPasswordPolicy.process pf papi (r0 :: rest) := by
  have he : s.isEmpty = false := by
    rcases s with _ | _
    · exact absurd rfl h2
    · rfl
  have hp : p.isEmpty = false := by
    rcases p with _ | _
    · exact absurd rfl h4
    · rfl
  refine ⟨?_, ?_, ?_, ?_⟩
  · simp only [IAMSummary.process, h1, Option.getD_some, he,
      Bool.false_eq_true, if_false]
    split <;> rfl
  · simp only [IAMSummary.process, h1, Option.getD_some, he,
      Bool.false_eq_true, if_false]
  · simp only [AccountPasswordPolicy.process, h3, Option.getD_some, hp,
      Bool.false_eq_true, if_false]
    split <;> rfl
  · simp only [AccountPasswordPolicy.process, h3, Option.getD_some, hp,
      Bool.false_eq_true, if_false]

/-- Witness for C7: an account annotated with a one-entry IAM summary and
a one-entry password policy is matched without any provider call, twice,
against two different provider answers. -/
theorem value_filter_cached_annotation_witness :
    IAMSummary.process (fun l => !l.isEmpty) [("Other", 1)]
      [⟨"123", "acct", none, none, none, none, some [("Users", 5)],
        some [("MinimumPasswordLength", 12)]⟩] =
      .ok (⟨"123", "acct", none, none, none, none, some [("Users", 5)],
            some [("MinimumPasswordLength", 12)]⟩,
           [⟨"123", "acct", none, none, none, none, some [("Users", 5)],
             some [("MinimumPasswordLength", 12)]⟩], false)
    ∧ IAMSummary.process (fun l => !l.isEmpty) [("Different", 2)]
        [⟨"123", "acct", none, none, none, none, some [("Users", 5)],
          some [("MinimumPasswordLength", 12)]⟩] =
      IAMSummary.process (fun l => !l.isEmpty) [("Other", 1)]
        [⟨"123", "acct", none, none, none, none, some [("Users", 5)],
          some [("MinimumPasswordLength", 12)]⟩] := by
  have h := value_filter_cached_annotation (fun l => !l.isEmpty)
    (fun l => !l.isEmpty) [("Other", 1)] [("Different", 2)]
    [("Other", 1)] [("Different", 2)]
    ⟨"123", "acct", none, none, none, none, some [("Users", 5)],
      some [("MinimumPasswordLength", 12)]⟩ [] [("Users", 5)]
    [("MinimumPasswordLength", 12)] rfl (by decide) rfl (by decide)
  exact ⟨by rw [h.1]; rfl, h.2.1⟩

/-- A unit error captured by `errOf` appears in the wave's log. -/
theorem mem_waveLogs {errOf : γ → Option PyError} {outcomes : List γ}
    {x : γ} {e : PyError} (hx : x ∈ outcomes) (he : errOf x = some e) :
    e ∈ waveLogs errOf outcomes := by
  have hne : outcomes ≠ [] := by rintro rfl; simp at hx
  have hlen : 0 < outcomes.length := List.length_pos.mpr hne
  unfold waveLogs
  rw [List.mem_flatten]
  refine ⟨outcomes.filterMap errOf, ?_, List.mem_filterMap.mpr ⟨x, hx, he⟩⟩
  rw [List.mem_map]
  refine ⟨outcomes.length - 1, List.mem_range.mpr (by omega), ?_⟩
  rw [Nat.sub_add_cancel hlen, List.take_length]

/-- C8: the `snapshot` and `retention` actions tolerate partial failure
without fail-fast: every resource's unit is submitted and executed (the
outcome list is the unit applied to every resource, in order, regardless
of earlier failures), every unit failure is captured in the wave's error
log, and the wave itself returns normally (its value is the outcome and
log pair — exceptions are only observed via `f.exception()`, never
re-raised). -/
theorem actions_no_fail_fast (days : Int)
    (mapi : ModifyCall → Option PyError) (sapi : String → Option PyError)
    (rs : List Cluster) :
    (RetentionWindow.process days mapi rs).1 =
      rs.map (RetentionWindow.process_snapshot_retention days mapi)
    ∧ (∀ r ∈ rs, ∀ e, retentionErrOf
          (RetentionWindow.process_snapshot_retention days mapi r) = some e →
        e ∈ (RetentionWindow.process days mapi rs).2)
    ∧ (Snapshot.process sapi rs).1 =
        rs.map (Snapshot.process_cluster_snapshot sapi)
    ∧ (∀ r ∈ rs, ∀ e, exceptErrOf
          (Snapshot.process_cluster_snapshot sapi r) = some e →
        e ∈ (Snapshot.process sapi rs).2) := by
  refine ⟨rfl, ?_, rfl, ?_⟩
  · intro r hr e he
    exact mem_waveLogs (List.mem_map_of_mem _ hr) he
  · intro r hr e he
    exact mem_waveLogs (List.mem_map_of_mem _ hr) he

/-- Witness for C8: a batch of 10 snapshot units in which unit 4 (cluster
`c3`) raises still executes all 10 units — the outcome list is the unit
applied to every cluster, with 9 successes and exactly 1 failed unit —
and the captured failure appears in the wave's error log. -/
theorem actions_no_fail_fast_witness :
    PyError.clientError "boom" ∈
      (Snapshot.process
        (fun sid => if sid = "c3" then some (.clientError "boom") else none)
        [⟨"c0", none, "b", "m"⟩, ⟨"c1", none, "b", "m"⟩,
         ⟨"c2", none, "b", "m"⟩, ⟨"c3", none, "b", "m"⟩,
         ⟨"c4", none, "b", "m"⟩, ⟨"c5", none, "b", "m"⟩,
         ⟨"c6", none, "b", "m"⟩, ⟨"c7", none, "b", "m"⟩,
         ⟨"c8", none, "b", "m"⟩, ⟨"c9", none, "b", "m"⟩]).2
    ∧ (Snapshot.process
        (fun sid => if sid = "c3" then some (.clientError "boom") else none)
        [⟨"c0", none, "b", "m"⟩, ⟨"c1", none, "b", "m"⟩,
         ⟨"c2", none, "b", "m"⟩, ⟨"c3", none, "b", "m"⟩,
         ⟨"c4", none, "b", "m"⟩, ⟨"c5", none, "b", "m"⟩,
         ⟨"c6", none, "b", "m"⟩, ⟨"c7", none, "b", "m"⟩,
         ⟨"c8", none, "b", "m"⟩, ⟨"c9", none, "b", "m"⟩]).1 =
      [⟨"c0", none, "b", "m"⟩, ⟨"c1", none, "b", "m"⟩,
       ⟨"c2", none, "b", "m"⟩, ⟨"c3", none, "b", "m"⟩,
       ⟨"c4", none, "b", "m"⟩, ⟨"c5", none, "b", "m"⟩,
       ⟨"c6", none, "b", "m"⟩, ⟨"c7", none, "b", "m"⟩,
       ⟨"c8", none, "b", "m"⟩, ⟨"c9", none, "b", "m"⟩].map
        (Snapshot.process_cluster_snapshot
          (fun sid => if sid = "c3" then some (.clientError "boom") else none))
    ∧ ((Snapshot.process
        (fun sid => if sid = "c3" then some (.clientError "boom") else none)
        [⟨"c0", none, "b", "m"⟩, ⟨"c1", none, "b", "m"⟩,
         ⟨"c2", none, "b", "m"⟩, ⟨"c3", none, "b", "m"⟩,
         ⟨"c4", none, "b", "m"⟩, ⟨"c5", none, "b", "m"⟩,
         ⟨"c6", none, "b", "m"⟩, ⟨"c7", none, "b", "m"⟩,
         ⟨"c8", none, "b", "m"⟩, ⟨"c9", none, "b", "m"⟩]).1.filter
          (fun o => (exceptErrOf o).isNone)).length = 9
    ∧ ((Snapshot.process
        (fun sid => if sid = "c3" then some (.clientError "boom") else none)
        [⟨"c0", none, "b", "m"⟩, ⟨"c1", none, "b", "m"⟩,
         ⟨"c2", none, "b", "m"⟩, ⟨"c3", none, "b", "m"⟩,
         ⟨"c4", none, "b", "m"⟩, ⟨"c5", none, "b", "m"⟩,
         ⟨"c6", none, "b", "m"⟩, ⟨"c7", none, "b", "m"⟩,
         ⟨"c8", none, "b", "m"⟩, ⟨"c9", none, "b", "m"⟩]).1.filter
          (fun o => (exceptErrOf o).isSome)).length = 1 := by
  have h := actions_no_fail_fast 0 (fun _ => none)
    (fun sid => if sid = "c3" then some (.clientError "boom") else none)
    [⟨"c0", none, "b", "m"⟩, ⟨"c1", none, "b", "m"⟩,
     ⟨"c2", none, "b", "m"⟩, ⟨"c3", none, "b", "m"⟩,
     ⟨"c4", none, "b", "m"⟩, ⟨"c5", none, "b", "m"⟩,
     ⟨"c6", none, "b", "m"⟩, ⟨"c7", none, "b", "m"⟩,
     ⟨"c8", none, "b", "m"⟩, ⟨"c9", none, "b", "m"⟩]
  exact ⟨h.2.2.2 ⟨"c3", none, "b", "m"⟩ (by decide)
      (.clientError "boom") (by decide),
    h.2.2.1, by decide, by decide⟩

/-- `chunks` of the empty sequence is empty whatever the fuel. -/
theorem chunksAux_nil (size fuel : Nat) :
    chunksAux size fuel ([] : List α) = [] := by
  cases fuel <;> rfl

/-- With enough fuel, concatenating the chunks restores the sequence. -/
theorem chunksAux_flatten (size : Nat) (hs : 0 < size) :
    ∀ (fuel : Nat) (xs : List α), xs.length ≤ fuel →
      (chunksAux size fuel xs).flatten = xs := by
  intro fuel
  induction fuel with
  | zero =>
    intro xs h
    rcases xs with _ | ⟨x, xs'⟩
    · rfl
    · simp at h
  | succ f ih =>
    intro xs h
    rcases xs with _ | ⟨x, xs'⟩
    · rfl
    · rw [chunksAux, List.flatten_cons, ih]
      · exact List.take_append_drop size (x :: xs')
      · rw [List.length_drop]
        simp only [List.length_cons] at h ⊢
        omega

/-- Every chunk is non-empty and no longer than the batch size. -/
theorem chunksAux_mem_sizes (size : Nat) (hs : 0 < size) :
    ∀ (fuel : Nat) (xs : List α), ∀ b ∈ chunksAux size fuel xs,
      b ≠ [] ∧ b.length ≤ size := by
  intro fuel
  induction fuel with
  | zero => intro xs b hb; simp [chunksAux] at hb
  | succ f ih =>
    intro xs b hb
    rcases xs with _ | ⟨x, xs'⟩
    · simp [chunksAux] at hb
    · rw [chunksAux] at hb
      rcases List.mem_cons.mp hb with rfl | hb'
      · refine ⟨?_, ?_⟩
        · rw [Ne, List.take_eq_nil_iff]
          rintro (rfl | h)
          · exact absurd hs (by omega)
          · exact List.cons_ne_nil x xs' h
        · rw [List.length_take]
          omega
      · exact ih _ b hb'

/-- Every chunk except the last has exactly the batch size. -/
theorem chunksAux_dropLast_sizes (size : Nat) :
    ∀ (fuel : Nat) (xs : List α),
      ∀ b ∈ (chunksAux size fuel xs).dropLast, b.length = size := by
  intro fuel
  induction fuel with
  | zero => intro xs b hb; simp [chunksAux] at hb
  | succ f ih =>
    intro xs b hb
    rcases xs with _ | ⟨x, xs'⟩
    · simp [chunksAux] at hb
    · rw [chunksAux] at hb
      rcases hrest : chunksAux size f ((x :: xs').drop size) with _ | ⟨r, rs⟩
      · rw [hrest] at hb
        simp at hb
      · rw [hrest, List.dropLast_cons_of_ne_nil (List.cons_ne_nil r rs)]
          at hb
        rcases List.mem_cons.mp hb with rfl | hb'
        · have hd : (x :: xs').drop size ≠ [] := by
            intro hnil
            rw [hnil, chunksAux_nil] at hrest
            exact List.cons_ne_nil r rs hrest.symm
          have hlen : size < (x :: xs').length := by
            by_contra hle
            exact hd (List.drop_eq_nil_of_le (by omega))
          rw [List.length_take]
          omega
        · have := ih ((x :: xs').drop size) b
          rw [hrest] at this
          exact this hb'

/-- C6: the bulk snapshot delete submits exactly the fixed-size-50 chunks
of the reversed snapshot list: the batches are `chunks(reversed(snaps), 50)`,
their concatenation is the reversed input (every record covered once, in
reverse order), every batch is non-empty with at most 50 records, every
batch but the last has exactly 50; in particular 120 records yield
exactly 3 batches of sizes [50, 50, 20] covering original indices
[119..70], [69..20] and [19..0]. -/
theorem snapshot_delete_batching (snaps : List Snap) :
    RDSClusterSnapshotDelete.batches snaps = chunks snaps.reverse 50
    ∧ (RDSClusterSnapshotDelete.batches snaps).flatten = snaps.reverse
    ∧ (∀ b ∈ RDSClusterSnapshotDelete.batches snaps,
        b ≠ [] ∧ b.length ≤ 50)
    ∧ (∀ b ∈ (RDSClusterSnapshotDelete.batches snaps).dropLast,
        b.length = 50)
    ∧ (RDSClusterSnapshotDelete.batches (List.range 120)).map List.length
        = [50, 50, 20]
    ∧ RDSClusterSnapshotDelete.batches (List.range 120)
        = [(List.range' 70 50).reverse, (List.range' 20 50).reverse,
           (List.range' 0 20).reverse] := by
  refine ⟨rfl, ?_, ?_, ?_, by decide, by decide⟩
  · exact chunksAux_flatten 50 (by omega) snaps.reverse.length
      snaps.reverse le_rfl
  · exact chunksAux_mem_sizes 50 (by omega) snaps.reverse.length
      snaps.reverse
  · exact chunksAux_dropLast_sizes 50 snaps.reverse.length snaps.reverse

/-- Witness for C6: for a two-snapshot list the single submitted batch is
the reversed pair, it is non-empty and within the batch size, and its
concatenation is the reversed input. -/
theorem snapshot_delete_batching_witness :
    (RDSClusterSnapshotDelete.batches
        [Snap.mk "s0", Snap.mk "s1"]).flatten =
      [Snap.mk "s1", Snap.mk "s0"]
    ∧ ([Snap.mk "s1", Snap.mk "s0"] ≠ []
      ∧ ([Snap.mk "s1", Snap.mk "s0"] : List Snap).length ≤ 50) :=
  ⟨(snapshot_delete_batching [Snap.mk "s0", Snap.mk "s1"]).2.1,
   (snapshot_delete_batching [Snap.mk "s0", Snap.mk "s1"]).2.2.1
     [Snap.mk "s1", Snap.mk "s0"] (by decide)⟩
